import Mathlib

/-!
Verification development for the outbound-caller agent (`src/agent.py`).

The Python program drives one outbound telephone call: an `OutboundCaller`
agent with tool handlers (`transfer_call`, `end_call`, `look_up_availability`,
`confirm_appointment`, `detected_answering_machine`) and an orchestrator
`entrypoint` that starts the conversational session, dials the callee over
SIP, and binds the callee participant to the agent.

We embed the program shallowly: each external side effect (dialing, waiting
for a participant, removing a participant, deleting the room, speaking a
reply, draining playout, sleeping) becomes an `Event`; each handler becomes a
Lean function from the agent state (plus the failure outcomes of its fallible
external calls, supplied as oracles) to the agent state, a result in
`Except String`, and the list of events it performed, in order.  A raised
Python exception that escapes a handler becomes `Except.error`; traces record
only the effects performed before the raise.
-/

/-- One observable side effect performed against the external collaborators
(telephony API, room service, conversational session). -/
inductive Event where
  /-- Models `ctx.connect()` in `entrypoint`. -/
  | connect
  /-- Models `asyncio.create_task(session.start(...))` in `entrypoint`: the session
  start is launched (not yet awaited). -/
  | sessionStartLaunched
  /-- Models `await session_started` in `entrypoint`. -/
  | sessionStartAwaited
  /-- Models `create_sip_participant(..., sip_call_to=target, wait_until_answered=True)`;
  `answered` is `false` when the call raises instead of answering. -/
  | dial (target : String) (answered : Bool)
  /-- Models `wait_for_participant(identity=...)`; `joined` is `false` when it raises. -/
  | waitParticipant (identity : String) (joined : Bool)
  /-- Models `agent.set_participant(participant)` in `entrypoint`. -/
  | setParticipant (identity : String)
  /-- Models `remove_participant(RoomParticipantIdentity(room, identity))`;
  `ok` is `false` when it raises. -/
  | removeParticipant (identity : String) (ok : Bool)
  /-- Models `delete_room(DeleteRoomRequest(room=...))` — the `hangup` helper. -/
  | deleteRoom
  /-- Models `session.generate_reply(instructions=...)`, awaited to completion. -/
  | generateReply (instructions : String)
  /-- Models `current_speech.wait_for_playout()` in `end_call`. -/
  | waitPlayout
  /-- Models `asyncio.sleep(seconds)` in `look_up_availability`. -/
  | sleep (seconds : Nat)
  /-- Models `logger.error(f"error creating SIP participant: ... SIP status: ...")`
  on a `TwirpError` in `entrypoint`. -/
  | logSipError (sipStatusCode : String) (sipStatus : String)
  /-- Models `ctx.shutdown()` in `entrypoint`. -/
  | shutdown
deriving DecidableEq, Repr

/-- The `dial_info` dict parsed from `json.loads(ctx.job.metadata)`:
`phone_number` (the number to dial), `transfer_to` (the transfer target, the
empty string standing for a falsy/absent value), and the caller-context
fields a job payload may carry. -/
structure DialInfo where
  phone_number : String
  transfer_to : String
  name : String
  appointment_time : String
deriving DecidableEq, Repr

/-- The instructions f-string built in `OutboundCaller.__init__`, with `name`
and `appointment_time` interpolated. -/
def instructionsTemplate (name appointment_time : String) : String :=
  "\n            You are a scheduling assistant for a dental practice. Your interface with user will be voice.\n            You will be on a call with a patient who has an upcoming appointment. Your goal is to confirm the appointment details.\n            As a customer service representative, you will be polite and professional at all times. Allow user to end the conversation.\n\n            When the user would like to be transferred to a human agent, use the transfer_call tool.\n            The customer\x27s name is "
    ++ name ++ ". His appointment is on " ++ appointment_time ++ ".\n            "

/-- The `OutboundCaller` agent state: the constructor arguments it stores and
the participant reference (`self.participant`), which is `None` until
`set_participant` runs; we record the participant by its identity. -/
structure OutboundCaller where
  name : String
  appointment_time : String
  dial_info : DialInfo
  participant : Option String
deriving DecidableEq, Repr

/-- Models `OutboundCaller.__init__`: stores the arguments and sets
`self.participant = None`. -/
def OutboundCaller.init (name appointment_time : String) (dial_info : DialInfo) :
    OutboundCaller :=
  { name := name, appointment_time := appointment_time, dial_info := dial_info,
    participant := none }

/-- The instructions string the agent passes to `super().__init__`. -/
def OutboundCaller.instructions (a : OutboundCaller) : String :=
  instructionsTemplate a.name a.appointment_time

/-- Models `set_participant`: stores the participant reference. -/
def OutboundCaller.set_participant (a : OutboundCaller) (identity : String) :
    OutboundCaller :=
  { a with participant := some identity }

/-- Result of running one tool handler: the agent state afterwards, the
Python return value (or the escaped exception), and the ordered trace of
external side effects performed. -/
structure ToolOutcome (α : Type) where
  agent : OutboundCaller
  result : Except String α
  trace : List Event
deriving Repr

/-- The exception raised by `self.participant.identity` when
`self.participant` is `None`. -/
def attributeErrorMsg : String :=
  "AttributeError: NoneType object has no attribute identity"

/-- Instructions of the transfer notice spoken before dialing the target. -/
def transferNoticeInstructions : String :=
  "let the user know you\x27ll be transferring them"

/-- Instructions of the apology spoken by the except-handler of `transfer_call`. -/
def transferApologyInstructions : String :=
  "there was an error transferring the call."

/-- The string `transfer_call` returns when no transfer target is set. -/
def cannotTransferMsg : String := "cannot transfer call"

/-- The three fallible awaits inside the try-block of `transfer_call`. -/
inductive TransferStage where
  /-- Models `create_sip_participant(..., sip_call_to=transfer_to, wait_until_answered=True)`. -/
  | dial
  /-- Models `wait_for_participant(identity=transfer_to)`. -/
  | joinWait
  /-- Models `remove_participant(room, local_participant.identity)`. -/
  | removeSelf
deriving DecidableEq, Repr

/-- Models `transfer_call`: guard on a falsy `dial_info["transfer_to"]`, speak the
notice, then try dial / join-wait / remove-self; on any exception in the
try-block, speak an apology and hang up (delete the room).  `localIdentity`
is `job_ctx.room.local_participant.identity`; `fails s = true` means the
external call of stage `s` raises when reached.  The handler never touches
`self.participant` and swallows the try-block exception, so it always
returns `Except.ok`. -/
def OutboundCaller.transfer_call (a : OutboundCaller) (localIdentity : String)
    (fails : TransferStage → Bool) : ToolOutcome (Option String) :=
  let transfer_to := a.dial_info.transfer_to
  if transfer_to = "" then
    ⟨a, .ok (some cannotTransferMsg), []⟩
  else
    let notice : List Event := [.generateReply transferNoticeInstructions]
    let apologyAndHangup : List Event :=
      [.generateReply transferApologyInstructions, .deleteRoom]
    if fails .dial then
      ⟨a, .ok none, notice ++ [.dial transfer_to false] ++ apologyAndHangup⟩
    else if fails .joinWait then
      ⟨a, .ok none,
        notice ++ [.dial transfer_to true, .waitParticipant transfer_to false]
          ++ apologyAndHangup⟩
    else if fails .removeSelf then
      ⟨a, .ok none,
        notice ++ [.dial transfer_to true, .waitParticipant transfer_to true,
          .removeParticipant localIdentity false] ++ apologyAndHangup⟩
    else
      ⟨a, .ok none,
        notice ++ [.dial transfer_to true, .waitParticipant transfer_to true,
          .removeParticipant localIdentity true]⟩

/-- Models `end_call`: logs `self.participant.identity` (raising `AttributeError`
when the participant is unbound), drains `ctx.session.current_speech` when
one is in flight, then hangs up. -/
def OutboundCaller.end_call (a : OutboundCaller) (current_speech : Bool) :
    ToolOutcome Unit :=
  match a.participant with
  | none => ⟨a, .error attributeErrorMsg, []⟩
  | some _ =>
      ⟨a, .ok (), (if current_speech then [Event.waitPlayout] else []) ++ [Event.deleteRoom]⟩

/-- The dict `look_up_availability` returns. -/
structure Availability where
  available_times : List String
deriving DecidableEq, Repr

/-- Models `look_up_availability`: logs `self.participant.identity` (raising when
unbound), sleeps 3 seconds, and returns the fixed slot list. -/
def OutboundCaller.look_up_availability (a : OutboundCaller) (date : String) :
    ToolOutcome Availability :=
  match a.participant with
  | none => ⟨a, .error attributeErrorMsg, []⟩
  | some _ => ⟨a, .ok ⟨["1pm", "2pm", "3pm"]⟩, [Event.sleep 3]⟩

/-- Models `confirm_appointment`: logs `self.participant.identity` (raising when
unbound) and returns the confirmation string; no external side effect. -/
def OutboundCaller.confirm_appointment (a : OutboundCaller) (date time : String) :
    ToolOutcome String :=
  match a.participant with
  | none => ⟨a, .error attributeErrorMsg, []⟩
  | some _ => ⟨a, .ok "reservation confirmed", []⟩

/-- Models `detected_answering_machine`: logs `self.participant.identity` (raising
when unbound) and hangs up immediately. -/
def OutboundCaller.detected_answering_machine (a : OutboundCaller) :
    ToolOutcome Unit :=
  match a.participant with
  | none => ⟨a, .error attributeErrorMsg, []⟩
  | some _ => ⟨a, .ok (), [Event.deleteRoom]⟩

/-- Outcome of the `create_sip_participant` dial in `entrypoint`: either the
callee answered, or the call raised `api.TwirpError` carrying a message and
the `sip_status_code` / `sip_status` metadata. -/
inductive DialOutcome where
  | answered
  | twirpError (message sipStatusCode sipStatus : String)
deriving DecidableEq, Repr

/-- The agent `entrypoint` constructs: hardcoded `name="Varun"` and
`appointment_time="next Tuesday at 3pm"`, with the parsed `dial_info`. -/
def entrypointAgent (dial_info : DialInfo) : OutboundCaller :=
  OutboundCaller.init "Varun" "next Tuesday at 3pm" dial_info

/-- The orchestrator `entrypoint` as its event trace: connect, launch the
session start as a task, dial the callee with `wait_until_answered=True`;
on answer, await the session start, wait for the callee participant and bind
it; on `TwirpError`, log the structured SIP failure and shut the job down. -/
def entrypoint (dial_info : DialInfo) (dialOutcome : DialOutcome) : List Event :=
  let participant_identity := dial_info.phone_number
  [Event.connect, Event.sessionStartLaunched] ++
    match dialOutcome with
    | .answered =>
        [Event.dial dial_info.phone_number true, Event.sessionStartAwaited,
          Event.waitParticipant participant_identity true,
          Event.setParticipant participant_identity]
    | .twirpError _ code status =>
        [Event.dial dial_info.phone_number false, Event.logSipError code status,
          Event.shutdown]

/-- Whether an event is a dial request against the telephony API. -/
def Event.isDial : Event → Bool
  | .dial _ _ => true
  | _ => false

/-- Sample payload with a transfer target configured. -/
def sampleDialInfo : DialInfo :=
  { phone_number := "+15105550123", transfer_to := "+15105550199",
    name := "Alice", appointment_time := "tomorrow at noon" }

/-- Sample payload whose transfer-target field is empty. -/
def sampleDialInfoNoTransfer : DialInfo :=
  { phone_number := "+15105550123", transfer_to := "",
    name := "Alice", appointment_time := "tomorrow at noon" }

/-- Agent fresh from `entrypoint` construction, no participant bound, no
transfer target. -/
def agentNoTarget : OutboundCaller := entrypointAgent sampleDialInfoNoTransfer

/-- Agent with a transfer target and the callee participant bound. -/
def agentBound : OutboundCaller :=
  (entrypointAgent sampleDialInfo).set_participant "+15105550123"

/-- C1: with an empty transfer-target field, `transfer_call` returns the
failure string "cannot transfer call" and performs no side effect at all: no
dial, no participant removed, no room deleted — its trace is empty. -/
theorem transfer_call_empty_target (a : OutboundCaller) (localIdentity : String)
    (fails : TransferStage → Bool) (h : a.dial_info.transfer_to = "") :
    a.transfer_call localIdentity fails = ⟨a, .ok (some cannotTransferMsg), []⟩ := by
  simp [OutboundCaller.transfer_call, h]

/-- Witness for C1: the sample agent with empty transfer target. -/
theorem transfer_call_empty_target_witness :
    agentNoTarget.transfer_call "agent-local" (fun _ => false) =
      ⟨agentNoTarget, .ok (some cannotTransferMsg), []⟩ :=
  transfer_call_empty_target agentNoTarget "agent-local" (fun _ => false) rfl

/-- Agent whose payload has a transfer target but whose participant reference
is still unbound (`set_participant` not yet called). -/
def agentUnboundWithTarget : OutboundCaller := entrypointAgent sampleDialInfo

/-- C2: whenever the transfer target is configured and any of the three
try-block stages (dial, join-wait, remove-self) raises, the trace of
`transfer_call` contains exactly one apology utterance and exactly one room
delete, and it ends with the apology immediately followed by the hangup —
so the apology precedes the hangup and neither happens twice or not at
all. -/
theorem transfer_call_failure_one_apology_one_hangup (a : OutboundCaller)
    (localIdentity : String) (fails : TransferStage → Bool)
    (hne : a.dial_info.transfer_to ≠ "")
    (hfail : fails .dial = true ∨ fails .joinWait = true ∨ fails .removeSelf = true) :
    (a.transfer_call localIdentity fails).trace.count
        (Event.generateReply transferApologyInstructions) = 1 ∧
    (a.transfer_call localIdentity fails).trace.count Event.deleteRoom = 1 ∧
    ∃ l, (a.transfer_call localIdentity fails).trace =
      l ++ [Event.generateReply transferApologyInstructions, Event.deleteRoom] := by
  by_cases hd : fails .dial
  · refine ⟨?_, ?_, [.generateReply transferNoticeInstructions,
      .dial a.dial_info.transfer_to false], ?_⟩ <;>
      simp [OutboundCaller.transfer_call, hne, hd, List.count_cons,
        transferApologyInstructions, transferNoticeInstructions]
  · by_cases hj : fails .joinWait
    · refine ⟨?_, ?_, [.generateReply transferNoticeInstructions,
        .dial a.dial_info.transfer_to true,
        .waitParticipant a.dial_info.transfer_to false], ?_⟩ <;>
        simp [OutboundCaller.transfer_call, hne, hd, hj, List.count_cons,
          transferApologyInstructions, transferNoticeInstructions]
    · have hr : fails .removeSelf = true := by
        rcases hfail with h | h | h
        · exact absurd h hd
        · exact absurd h hj
        · exact h
      refine ⟨?_, ?_, [.generateReply transferNoticeInstructions,
        .dial a.dial_info.transfer_to true,
        .waitParticipant a.dial_info.transfer_to true,
        .removeParticipant localIdentity false], ?_⟩ <;>
        simp [OutboundCaller.transfer_call, hne, hd, hj, hr, List.count_cons,
          transferApologyInstructions, transferNoticeInstructions]

/-- Witness for C2: bound agent with a transfer target, all three stages
failing. -/
theorem transfer_call_failure_one_apology_one_hangup_witness :
    (agentBound.transfer_call "agent-a" (fun _ => true)).trace.count
        (Event.generateReply transferApologyInstructions) = 1 ∧
    (agentBound.transfer_call "agent-a" (fun _ => true)).trace.count Event.deleteRoom = 1 ∧
    ∃ l, (agentBound.transfer_call "agent-a" (fun _ => true)).trace =
      l ++ [Event.generateReply transferApologyInstructions, Event.deleteRoom] :=
  transfer_call_failure_one_apology_one_hangup agentBound "agent-a" (fun _ => true)
    (by decide) (Or.inl rfl)

/-- C3: a fully successful `transfer_call` performs exactly, and in this
order: the awaited transfer notice, the blocking dial of the transfer
target, the wait for that participant to join, and the removal of the
agent's own local participant — and nothing else. -/
theorem transfer_call_success_order (a : OutboundCaller) (localIdentity : String)
    (fails : TransferStage → Bool) (hne : a.dial_info.transfer_to ≠ "")
    (hd : fails .dial = false) (hj : fails .joinWait = false)
    (hr : fails .removeSelf = false) :
    a.transfer_call localIdentity fails =
      ⟨a, .ok none,
        [Event.generateReply transferNoticeInstructions,
          Event.dial a.dial_info.transfer_to true,
          Event.waitParticipant a.dial_info.transfer_to true,
          Event.removeParticipant localIdentity true]⟩ := by
  simp [OutboundCaller.transfer_call, hne, hd, hj, hr]

/-- Witness for C3: bound agent with a transfer target, no stage failing. -/
theorem transfer_call_success_order_witness :
    agentBound.transfer_call "agent-b" (fun _ => false) =
      ⟨agentBound, .ok none,
        [Event.generateReply transferNoticeInstructions,
          Event.dial agentBound.dial_info.transfer_to true,
          Event.waitParticipant agentBound.dial_info.transfer_to true,
          Event.removeParticipant "agent-b" true]⟩ :=
  transfer_call_success_order agentBound "agent-b" (fun _ => false)
    (by decide) rfl rfl rfl

/-- C4: with the participant bound, `end_call` with an in-flight utterance
drains it (`waitPlayout`) strictly before the single room delete, and with
no utterance in flight deletes the room directly; the delete never precedes
the drain. -/
theorem end_call_drains_before_delete (a : OutboundCaller) (p : String)
    (current_speech : Bool) (hp : a.participant = some p) :
    a.end_call current_speech =
      ⟨a, .ok (),
        if current_speech then [Event.waitPlayout, Event.deleteRoom]
        else [Event.deleteRoom]⟩ := by
  cases current_speech <;> simp [OutboundCaller.end_call, hp]

/-- Witness for C4: bound agent with an utterance in flight. -/
theorem end_call_drains_before_delete_witness :
    agentBound.end_call true =
      ⟨agentBound, .ok (),
        if true then [Event.waitPlayout, Event.deleteRoom]
        else [Event.deleteRoom]⟩ :=
  end_call_drains_before_delete agentBound "+15105550123" true rfl

/-- C5: in every `entrypoint` run, whatever the dial outcome, the session
start is launched before any dial request appears in the trace: the trace
splits as a prefix with no dial event, then `sessionStartLaunched`, then the
rest. -/
theorem entrypoint_session_start_before_dial (d : DialInfo) (o : DialOutcome) :
    ∃ l₁ l₂, entrypoint d o = l₁ ++ Event.sessionStartLaunched :: l₂ ∧
      ∀ e ∈ l₁, e.isDial = false := by
  cases o with
  | answered =>
      exact ⟨[Event.connect], _, rfl, by simp [Event.isDial]⟩
  | twirpError m c s =>
      exact ⟨[Event.connect], _, rfl, by simp [Event.isDial]⟩

/-- C6: when the dial raises a `TwirpError` carrying SIP status metadata,
`entrypoint` logs the structured failure and shuts the job down, never binds
a participant, never awaits session start (no conversation turns), and
issues exactly one dial request. -/
theorem entrypoint_dial_failure_terminates (d : DialInfo) (msg code status : String) :
    entrypoint d (.twirpError msg code status) =
      [Event.connect, Event.sessionStartLaunched, Event.dial d.phone_number false,
        Event.logSipError code status, Event.shutdown] ∧
    Event.logSipError code status ∈ entrypoint d (.twirpError msg code status) ∧
    Event.shutdown ∈ entrypoint d (.twirpError msg code status) ∧
    (∀ p, Event.setParticipant p ∉ entrypoint d (.twirpError msg code status)) ∧
    Event.sessionStartAwaited ∉ entrypoint d (.twirpError msg code status) ∧
    (entrypoint d (.twirpError msg code status)).countP (fun e => e.isDial) = 1 := by
  refine ⟨rfl, ?_, ?_, ?_, ?_, ?_⟩ <;>
    simp [entrypoint, Event.isDial, List.countP_cons]

/-- C7 counterexample: `transfer_call` invoked while the stored participant
reference is still `none` does not fail at all — with a configured target it
performs the whole transfer protocol (dial, join-wait, remove) and returns
`ok`, because the active code never reads `self.participant`. -/
theorem transfer_call_unbound_counterexample :
    agentUnboundWithTarget.participant = none ∧
    agentUnboundWithTarget.transfer_call "agent-c" (fun _ => false) =
      ⟨agentUnboundWithTarget, .ok none,
        [Event.generateReply transferNoticeInstructions,
          Event.dial "+15105550199" true,
          Event.waitParticipant "+15105550199" true,
          Event.removeParticipant "agent-c" true]⟩ :=
  ⟨rfl, rfl⟩

/-- C7 amended: of the five handlers, the four that read
`self.participant.identity` (`end_call`, `look_up_availability`,
`confirm_appointment`, `detected_answering_machine`) fail fast with an
`AttributeError` and perform no side effect when invoked before
`set_participant`; `transfer_call` is the exception — it never reads the
participant reference and proceeds without error. -/
theorem handlers_unbound_fail_fast (a : OutboundCaller) (cs : Bool)
    (d t : String) (hp : a.participant = none) :
    a.end_call cs = ⟨a, .error attributeErrorMsg, []⟩ ∧
    a.look_up_availability d = ⟨a, .error attributeErrorMsg, []⟩ ∧
    a.confirm_appointment d t = ⟨a, .error attributeErrorMsg, []⟩ ∧
    a.detected_answering_machine = ⟨a, .error attributeErrorMsg, []⟩ := by
  refine ⟨?_, ?_, ?_, ?_⟩ <;>
    simp [OutboundCaller.end_call, OutboundCaller.look_up_availability,
      OutboundCaller.confirm_appointment,
      OutboundCaller.detected_answering_machine, hp]

/-- Witness for the amended C7: the freshly constructed agent. -/
theorem handlers_unbound_fail_fast_witness :
    agentNoTarget.end_call true = ⟨agentNoTarget, .error attributeErrorMsg, []⟩ ∧
    agentNoTarget.look_up_availability "2026-01-05" =
      ⟨agentNoTarget, .error attributeErrorMsg, []⟩ ∧
    agentNoTarget.confirm_appointment "2026-01-05" "3pm" =
      ⟨agentNoTarget, .error attributeErrorMsg, []⟩ ∧
    agentNoTarget.detected_answering_machine =
      ⟨agentNoTarget, .error attributeErrorMsg, []⟩ :=
  handlers_unbound_fail_fast agentNoTarget true "2026-01-05" "3pm" rfl

/-- C8: with the participant bound, `detected_answering_machine` hangs up
immediately: its whole trace is the single room delete, with no appointment
action or any other side effect before it, and the agent state is
unchanged. -/
theorem detected_answering_machine_immediate_hangup (a : OutboundCaller)
    (p : String) (hp : a.participant = some p) :
    a.detected_answering_machine = ⟨a, .ok (), [Event.deleteRoom]⟩ := by
  simp [OutboundCaller.detected_answering_machine, hp]

/-- Witness for C8: the bound agent. -/
theorem detected_answering_machine_immediate_hangup_witness :
    agentBound.detected_answering_machine =
      ⟨agentBound, .ok (), [Event.deleteRoom]⟩ :=
  detected_answering_machine_immediate_hangup agentBound "+15105550123" rfl

set_option maxRecDepth 100000 in
/-- C9 counterexample: the job payload carries name "Alice", yet the
instructions of the agent `entrypoint` constructs do not contain "Alice"
anywhere — the instructions are seeded from hardcoded values, not from the
dial-info payload. -/
theorem instructions_ignore_dial_info_name :
    sampleDialInfo.name = "Alice" ∧
    ¬ ("Alice".toList <:+: (entrypointAgent sampleDialInfo).instructions.toList) :=
  ⟨rfl, by decide⟩

set_option maxRecDepth 100000 in
/-- C9 amended: for every payload, the instructions string is the template
applied to the hardcoded values "Varun" and "next Tuesday at 3pm" — it is
independent of the payload's caller-context fields — and it does contain
the hardcoded name. -/
theorem entrypoint_instructions_hardcoded (d : DialInfo) :
    (entrypointAgent d).instructions =
      instructionsTemplate "Varun" "next Tuesday at 3pm" ∧
    ("Varun".toList <:+: (entrypointAgent d).instructions.toList) :=
  ⟨rfl, by
    show "Varun".toList <:+: (instructionsTemplate "Varun" "next Tuesday at 3pm").toList
    decide⟩

/-- C10: with the participant bound, `look_up_availability` returns the fixed
record with available_times ["1pm", "2pm", "3pm"] for every date argument
and every agent state, leaves the agent completely unchanged, and its only
side effect is the three-second sleep. -/
theorem look_up_availability_fixed (a : OutboundCaller) (p date : String)
    (hp : a.participant = some p) :
    a.look_up_availability date =
      ⟨a, .ok ⟨["1pm", "2pm", "3pm"]⟩, [Event.sleep 3]⟩ := by
  simp [OutboundCaller.look_up_availability, hp]

/-- Witness for C10: the bound agent on a concrete date. -/
theorem look_up_availability_fixed_witness :
    agentBound.look_up_availability "2026-02-02" =
      ⟨agentBound, .ok ⟨["1pm", "2pm", "3pm"]⟩, [Event.sleep 3]⟩ :=
  look_up_availability_fixed agentBound "+15105550123" "2026-02-02" rfl
